import Mathlib

/-!
Shallow embedding of the Voice Conversation Orchestrator implemented in
src/chatbot-temp/static/chat.js.

The JavaScript is single-threaded and callback driven.  Each relevant
function of the source is translated into a pure Lean function over an
explicit state record; asynchronous results of network calls (the /api/tts,
/api/chat, /api/transcribe and /api/status fetches) are passed in as
explicit outcome values, since the orchestrator merely branches on them.

Models in this file:
* St / stepEvent / runEvents - the speech synthesis orchestrator and the
  hands-free (voice mode) toggle: the variables elevenLabsAvailable,
  voiceModeActive, autoSpeak, isSpeaking, currentSpeakingMsgId, isRecording,
  currentAudio and the speech synthesis queue, together with the functions
  speakText, stopSpeaking, stopSpeakingElevenLabs, speakWithElevenLabs, the
  voice mode button handler and the startListening cancellation prelude.
* UiState / sendMessageEntry / resolveDispatch - the dispatch gate inside
  sendMessage: its entry guard and the handling of each terminal outcome of
  the /api/chat fetch.
* HdSt / startCaptureHD / stopListening / timeoutFire / onstopHandler - the
  HD (raw clip) capture path: MediaRecorder state, the 30 second timeout
  armed in startListening, and the mediaRecorder.onstop handler with its
  /api/transcribe outcome handling.
* PbSt / pbStep / pbRun - the lifecycle of premium Audio elements with
  standard HTML media semantics (a paused element never fires its ended
  event), used for the stale playback handle property.
-/

/-- JavaScript truthiness of a nullable string: null/undefined and the empty
string are falsy, every other string is truthy. -/
def jsTruthy : Option String → Bool
  | some t => !t.isEmpty
  | none => false

/-- JavaScript expression a-or-else-b on a nullable string: yields the
string when it is truthy, otherwise the default. -/
def jsOr (s : Option String) (dflt : String) : String :=
  match s with
  | some t => if t.isEmpty then dflt else t
  | none => dflt

/-- A non-null currentAudio element of chat.js.  The playing field is the
platform side of the element: true while the audio is actually progressing
(play was called and neither pause nor the natural end happened yet). -/
structure AudioHandle where
  playing : Bool
deriving DecidableEq

/-- Which synthesis engine rendered one utterance. -/
inductive Engine
  | premium
  | browser
deriving DecidableEq

/-- Observable outcome of one speak call: whether a request against the
premium /api/tts endpoint was issued, and which engine rendered the text. -/
structure SpeakOut where
  premiumRequested : Bool
  engine : Engine
deriving DecidableEq

/-- Outcome of the /api/tts fetch inside speakWithElevenLabs.
httpError status models a response with ok = false and the given status
code; body models an ok response with its parsed JSON fields success and
audio_base64; netError models a rejected fetch (the catch branch). -/
inductive TtsResult
  | httpError (status : Nat)
  | body (success : Bool) (audioBase64 : Option String)
  | netError
deriving DecidableEq

/-- The mutable top level variables of chat.js that the speech synthesis
orchestrator and the voice mode handler read and write.  synthActive is the
platform side of window.speechSynthesis: true while a browser TTS utterance
is queued or speaking. -/
structure St where
  elevenLabsAvailable : Bool
  voiceModeActive : Bool
  autoSpeak : Bool
  isSpeaking : Bool
  currentSpeakingMsgId : Option Nat
  isRecording : Bool
  currentAudio : Option AudioHandle
  synthActive : Bool
deriving DecidableEq

/-- Initial values of the variables at page load (chat.js lines 20 to 26
and 332): elevenLabsAvailable starts false. -/
def initSt : St :=
  { elevenLabsAvailable := false
    voiceModeActive := false
    autoSpeak := false
    isSpeaking := false
    currentSpeakingMsgId := none
    isRecording := false
    currentAudio := none
    synthActive := false }

/-- True when a premium Audio element is currently audible. -/
def premiumActive (st : St) : Bool :=
  match st.currentAudio with
  | some a => a.playing
  | none => false

/-- Number of simultaneously audible playbacks: the premium Audio element
plus the browser speech synthesis utterance. -/
def activePlaybacks (st : St) : Nat :=
  (if premiumActive st then 1 else 0) + (if st.synthActive then 1 else 0)

/-- speakText (chat.js lines 228 to 289): browser TTS.  It cancels the
speech synthesis queue, builds an utterance whose onstart sets isSpeaking
and currentSpeakingMsgId, and speaks it.  It does not touch currentAudio. -/
def speakText (st : St) (msgId : Option Nat) : St :=
  let st1 := { st with synthActive := false }
  { st1 with synthActive := true, isSpeaking := true, currentSpeakingMsgId := msgId }

/-- stopSpeaking (chat.js lines 291 to 300): cancels the speech synthesis
queue and clears isSpeaking and currentSpeakingMsgId.  It does not touch
currentAudio. -/
def stopSpeaking (st : St) : St :=
  { st with synthActive := false, isSpeaking := false, currentSpeakingMsgId := none }

/-- stopSpeakingElevenLabs (chat.js lines 457 to 464): if currentAudio is
non-null it pauses the element (so it is no longer playing) and sets
currentAudio to null, then also calls stopSpeaking. -/
def stopSpeakingElevenLabs (st : St) : St :=
  let st1 :=
    match st.currentAudio with
    | some _ => { st with currentAudio := none }
    | none => st
  stopSpeaking st1

/-- speakWithElevenLabs (chat.js lines 376 to 455), given the outcome of
the /api/tts fetch.  Returns the new state together with the observable
outcome of the call.  When elevenLabsAvailable is false it goes to browser
TTS without any request; on a non-ok response it sets elevenLabsAvailable
to false exactly when the status is 401 or 500 and falls back to browser
TTS; on an ok response carrying audio it stops the current playback and
starts a new premium Audio element; every other outcome falls back to
browser TTS. -/
def speakWithElevenLabs (st : St) (msgId : Option Nat) (res : TtsResult) :
    St × SpeakOut :=
  if !st.elevenLabsAvailable then
    (speakText st msgId, { premiumRequested := false, engine := Engine.browser })
  else
    match res with
    | TtsResult.httpError status =>
        let st1 :=
          if status == 401 || status == 500 then
            { st with elevenLabsAvailable := false }
          else st
        (speakText st1 msgId, { premiumRequested := true, engine := Engine.browser })
    | TtsResult.body success audioBase64 =>
        if success && jsTruthy audioBase64 then
          let st1 := stopSpeakingElevenLabs st
          let st2 :=
            { st1 with
              currentAudio := some { playing := true }
              isSpeaking := true
              currentSpeakingMsgId := msgId }
          (st2, { premiumRequested := true, engine := Engine.premium })
        else
          (speakText st msgId, { premiumRequested := true, engine := Engine.browser })
    | TtsResult.netError =>
        (speakText st msgId, { premiumRequested := true, engine := Engine.browser })

/-- The three primitive operations performed by startListening (chat.js
lines 146 to 215) that concern playback and capture, in source order:
stopSpeakingElevenLabs(), window.speechSynthesis.cancel(), and the
acquisition of the new capture (getUserMedia plus mediaRecorder.start in
HD mode, recognition.start in STD mode). -/
inductive MicOp
  | cancelPremiumPlayback
  | cancelLocalSynth
  | acquireCapture
deriving DecidableEq

/-- Effect of one primitive startListening operation on the state. -/
def applyMicOp (st : St) : MicOp → St
  | MicOp.cancelPremiumPlayback => stopSpeakingElevenLabs st
  | MicOp.cancelLocalSynth => { st with synthActive := false }
  | MicOp.acquireCapture => { st with isRecording := true }

/-- The operations of startListening in the order the source performs
them: both cancellations come before the capture acquisition. -/
def startListeningOps : List MicOp :=
  [MicOp.cancelPremiumPlayback, MicOp.cancelLocalSynth, MicOp.acquireCapture]

/-- All states observable during one startListening call: the initial
state and the state after each primitive operation. -/
def statesFrom (st : St) : List MicOp → List St
  | [] => [st]
  | op :: ops => st :: statesFrom (applyMicOp st op) ops

/-- The observed states of one startListening call. -/
def micStates (st : St) : List St :=
  statesFrom st startListeningOps

/-- Final state of one startListening call. -/
def startListening (st : St) : St :=
  startListeningOps.foldl applyMicOp st

/-- Events driving the synthesis orchestrator model.  voiceClick is one
click on the voice mode button, carrying the outcome of the /api/status
probe (none when the fetch threw; the probe is only consulted when the
click enables voice mode) and the /api/tts outcome for the greeting
utterance spoken on enabling.  speak is one speakWithElevenLabs call (the
auto-speak path), speakBtn one click on the read-aloud button of message
msgId, audioEnded the natural end of the current premium Audio element. -/
inductive Ev
  | voiceClick (probe : Option Bool) (greet : TtsResult)
  | speak (msgId : Option Nat) (res : TtsResult)
  | speakBtn (msgId : Nat)
  | audioEnded
deriving DecidableEq

/-- One event step of the orchestrator, returning the new state and, when
the event performed a speak call, its observable outcome.  Translated from
the voice mode button handler (chat.js lines 334 to 373), the read-aloud
button handler (lines 727 to 734) and the currentAudio.onended handler
(lines 422 to 434). -/
def stepEvent (st : St) : Ev → St × Option SpeakOut
  | Ev.voiceClick probe greet =>
      if st.voiceModeActive then
        let st1 := { st with voiceModeActive := false }
        let st2 := stopSpeakingElevenLabs st1
        ({ st2 with autoSpeak := false }, none)
      else
        let st1 := { st with voiceModeActive := true }
        let st2 := { st1 with elevenLabsAvailable := probe.getD false }
        let st3 := { st2 with autoSpeak := true }
        let r := speakWithElevenLabs st3 none greet
        (r.1, some r.2)
  | Ev.speak msgId res =>
      let r := speakWithElevenLabs st msgId res
      (r.1, some r.2)
  | Ev.speakBtn msgId =>
      if st.isSpeaking && st.currentSpeakingMsgId == some msgId then
        (stopSpeaking st, none)
      else
        (speakText st (some msgId),
         some { premiumRequested := false, engine := Engine.browser })
  | Ev.audioEnded =>
      match st.currentAudio with
      | some a =>
          if a.playing then
            let st1 :=
              { st with
                currentAudio := some { playing := false }
                isSpeaking := false
                currentSpeakingMsgId := none }
            if st1.voiceModeActive && !st1.isRecording then
              (startListening st1, none)
            else
              (st1, none)
          else (st, none)
      | none => (st, none)

/-- Run a list of events, collecting the outcome of every speak call. -/
def runEvents (st : St) : List Ev → St × List SpeakOut
  | [] => (st, [])
  | e :: es =>
      let r := stepEvent st e
      let rest := runEvents r.1 es
      (rest.1, r.2.toList ++ rest.2)

/-- A message appended to the chat transcript shown to the user. -/
inductive Msg
  | user (text : String)
  | bot (text : String)
  | errorMsg (text : String)
deriving DecidableEq

/-- The UI state read and written by sendMessage (chat.js lines 530 to
617): the input field value, the disabled flags of the send button and the
input field, the dimming of the send button (opacity 0.5), the debug flag,
the transcript, and the stored session identifier. -/
structure UiState where
  inputValue : String
  sendBtnDisabled : Bool
  userInputDisabled : Bool
  sendBtnDimmed : Bool
  debugMode : Bool
  messages : List Msg
  sessionId : Option String
deriving DecidableEq

/-- Result of the synchronous entry portion of sendMessage, up to the
point where the /api/chat fetch is issued.  ignored is the bare early
return on line 532: nothing is changed, nothing is shown, no request is
made and no queueing occurs. -/
inductive SendPhase1
  | ignored
  | debugToggled (st : UiState)
  | dispatchStarted (st : UiState) (payload : String)
deriving DecidableEq

/-- Entry portion of sendMessage (chat.js lines 530 to 549): trims the
input; returns silently when the trimmed text is empty or the send button
is disabled (a dispatch is in flight); handles the /debug toggle; otherwise
appends the user message, clears the input, disables the send button and
the input field, dims the button, and issues the dispatch with the text. -/
def sendMessageEntry (st : UiState) : SendPhase1 :=
  let text := st.inputValue.trim
  if text.isEmpty || st.sendBtnDisabled then
    SendPhase1.ignored
  else if text.toLower == "/debug" then
    let dm := !st.debugMode
    SendPhase1.debugToggled
      { st with
        debugMode := dm
        messages := st.messages ++
          [Msg.errorMsg (if dm then "Debug Mode: ON" else "Debug Mode: OFF")]
        inputValue := "" }
  else
    SendPhase1.dispatchStarted
      { st with
        messages := st.messages ++ [Msg.user text]
        inputValue := ""
        sendBtnDisabled := true
        userInputDisabled := true
        sendBtnDimmed := true }
      text

/-- addErrorMessage (chat.js lines 754 to 761). -/
def addErrorMessage (st : UiState) (text : String) : UiState :=
  { st with messages := st.messages ++ [Msg.errorMsg text] }

/-- addBotMessage (chat.js lines 683 to 752), reduced to its transcript
effect. -/
def addBotMessage (st : UiState) (text : String) : UiState :=
  { st with messages := st.messages ++ [Msg.bot text] }

/-- The three statements sendBtn.disabled = false, userInput.disabled =
false, sendBtn.style.opacity = 1 that every terminal branch of sendMessage
executes. -/
def enableSendControls (st : UiState) : UiState :=
  { st with sendBtnDisabled := false, userInputDisabled := false, sendBtnDimmed := false }

/-- Terminal outcome of the /api/chat fetch in sendMessage.  httpFail body
models a response with ok = false: body is none when its JSON failed to
parse and some detail when it parsed with the optional detail field.
okJson models an ok response with its extracted reply text (already
normalized from the string-or-object shape), optional session_id and
optional detail.  netError models a rejected fetch. -/
inductive ChatOutcome
  | httpFail (body : Option (Option String))
  | okJson (response : Option String) (sessionId : Option String) (detail : Option String)
  | netError
deriving DecidableEq

/-- Resolution portion of sendMessage (chat.js lines 561 to 616), applied
to the state left by sendMessageEntry once the fetch settles.  On a non-ok
response it shows the detail (with the two fallback texts of the source)
and re-enables the controls; on an ok response it re-enables the controls,
then either appends the reply (updating the stored session identifier when
one was returned), shows the detail as an error, or reports an empty
response; on a network error it reports the connection failure and
re-enables the controls.  The auto-speak call in the reply branch is
modeled separately by speakWithElevenLabs / speakText. -/
def resolveDispatch (st : UiState) (o : ChatOutcome) : UiState :=
  match o with
  | ChatOutcome.httpFail body =>
      let errorData : Option String :=
        match body with
        | none => some "Network error or server failed to return JSON."
        | some d => d
      let st1 := addErrorMessage st (jsOr errorData "Failed to connect to backend.")
      enableSendControls st1
  | ChatOutcome.okJson response sid detail =>
      let st1 := enableSendControls st
      if jsTruthy response then
        let st2 := addBotMessage st1 (response.getD "")
        match sid with
        | some s => { st2 with sessionId := some s }
        | none => st2
      else if jsTruthy detail then
        addErrorMessage st1 ("Error: " ++ detail.getD "")
      else
        addErrorMessage st1 "Received empty response from server."
  | ChatOutcome.netError =>
      let st1 := addErrorMessage st "Backend connection failed or timed out."
      enableSendControls st1

/-- MediaRecorder state in the HD (raw clip) capture path. -/
inductive RecorderState
  | inactive
  | recording
deriving DecidableEq

/-- State of the HD capture path (chat.js lines 151 to 225): the HD toggle,
the recorder, the accumulated audio chunks, the mic flag, the pending
timeout delay armed by startListening, and the observable outputs of the
onstop handler: blobs submitted to /api/transcribe, error messages shown,
and texts handed to sendMessage for dispatch. -/
structure HdSt where
  useHDMode : Bool
  recState : RecorderState
  isRecording : Bool
  audioChunks : List Nat
  timerArmed : Option Nat
  transcribeRequests : List (List Nat)
  errors : List String
  dispatched : List String
deriving DecidableEq

/-- HD branch of startListening (chat.js lines 151 to 201) after the
microphone stream is granted: resets audioChunks, sets isRecording, starts
the recorder and arms the 30000 millisecond auto-stop timeout. -/
def startCaptureHD (st : HdSt) : HdSt :=
  { st with
    audioChunks := []
    isRecording := true
    recState := RecorderState.recording
    timerArmed := some 30000 }

/-- mediaRecorder.ondataavailable (chat.js lines 158 to 160): appends one
chunk. -/
def dataAvailable (st : HdSt) (c : Nat) : HdSt :=
  { st with audioChunks := st.audioChunks ++ [c] }

/-- The HD toggle button handler (chat.js lines 119 to 126): flips
useHDMode unconditionally - there is no guard against clicking it while a
recording is in progress. -/
def hdToggleClick (st : HdSt) : HdSt :=
  { st with useHDMode := !st.useHDMode }

/-- stopListening (chat.js lines 217 to 225): when in HD mode with a
recording recorder it stops the recorder and clears isRecording; otherwise
it falls through to recognition.stop, which does not touch the recorder. -/
def stopListening (st : HdSt) : HdSt :=
  if st.useHDMode && st.recState == RecorderState.recording then
    { st with recState := RecorderState.inactive, isRecording := false }
  else st

/-- The 30 second timeout handler armed in startListening (chat.js lines
197 to 201): when the recorder is still recording, it calls stopListening. -/
def timeoutFire (st : HdSt) : HdSt :=
  if st.recState == RecorderState.recording then stopListening st else st

/-- Outcome of the /api/transcribe fetch inside mediaRecorder.onstop:
response models a fulfilled fetch with the parsed JSON fields success,
text and error; netError models a rejected fetch or failed JSON parse
(the catch branch). -/
inductive TranscribeOutcome
  | response (success : Bool) (text : Option String) (error : Option String)
  | netError
deriving DecidableEq

/-- The branch condition data.success and data.text of the onstop handler. -/
def transcribeSucceeded : TranscribeOutcome → Bool
  | TranscribeOutcome.response success text _ => success && jsTruthy text
  | TranscribeOutcome.netError => false

/-- mediaRecorder.onstop (chat.js lines 162 to 190): builds a blob from the
accumulated chunks and submits it to /api/transcribe; when the response has
success and a truthy text, the text is handed to sendMessage for dispatch;
otherwise an error message is shown and nothing is dispatched. -/
def onstopHandler (st : HdSt) (o : TranscribeOutcome) : HdSt :=
  let st1 := { st with transcribeRequests := st.transcribeRequests ++ [st.audioChunks] }
  match o with
  | TranscribeOutcome.response success text err =>
      if success && jsTruthy text then
        { st1 with dispatched := st1.dispatched ++ [text.getD ""] }
      else
        { st1 with errors := st1.errors ++
            ["Transcription failed: " ++ jsOr err "Unknown error"] }
  | TranscribeOutcome.netError =>
      { st1 with errors := st1.errors ++ ["Failed to transcribe audio"] }

/-- Lifecycle phase of one premium Audio element, with standard HTML media
semantics: the ended event fires only when a playing element reaches the
end of its media; a paused element makes no progress and never fires
ended (chat.js never calls play on an element again after pausing it). -/
inductive AudioPhase
  | playing
  | paused
  | ended
deriving DecidableEq

/-- State for the playback handle lifecycle model: the phase of every
premium Audio element created so far (element i is entry i, in creation
order), the currentAudio variable as an index, the voice mode and mic
flags, and the log of elements whose ended handler performed the
auto-listen re-arm. -/
structure PbSt where
  audios : List AudioPhase
  currentAudio : Option Nat
  voiceModeActive : Bool
  isRecording : Bool
  rearms : List Nat
deriving DecidableEq

/-- stopSpeakingElevenLabs restricted to the premium element (chat.js
lines 457 to 462): pause the current element and null currentAudio. -/
def cancelCurrent (st : PbSt) : PbSt :=
  match st.currentAudio with
  | some i => { st with audios := st.audios.set i AudioPhase.paused, currentAudio := none }
  | none => st

/-- Events of the playback lifecycle model.  finish i is the platform
reaching the end of the media of element i; stopPlayback is a call to
stopSpeakingElevenLabs (user cancellation or barge-in); newPlayback is the
success path of speakWithElevenLabs, which stops the current element and
creates and plays a new one; voiceOff and voiceOn are the voice mode
toggle; recStop is the end of a capture clearing isRecording. -/
inductive PbEv
  | finish (i : Nat)
  | stopPlayback
  | newPlayback
  | voiceOff
  | voiceOn
  | recStop
deriving DecidableEq

/-- One step of the playback lifecycle model.  On finish i, only a playing
element transitions to ended and runs its onended handler (chat.js lines
422 to 434), whose auto-listen branch calls startListening - which first
cancels the current playback and then acquires the microphone - and is
recorded in rearms; a paused or already ended element does nothing. -/
def pbStep (st : PbSt) : PbEv → PbSt
  | PbEv.finish i =>
      match st.audios[i]? with
      | some AudioPhase.playing =>
          let st1 := { st with audios := st.audios.set i AudioPhase.ended }
          if st1.voiceModeActive && !st1.isRecording then
            let st2 := cancelCurrent st1
            { st2 with isRecording := true, rearms := st2.rearms ++ [i] }
          else st1
      | _ => st
  | PbEv.stopPlayback => cancelCurrent st
  | PbEv.newPlayback =>
      let st1 := cancelCurrent st
      { st1 with
        audios := st1.audios ++ [AudioPhase.playing]
        currentAudio := some st1.audios.length }
  | PbEv.voiceOff =>
      let st1 := cancelCurrent st
      { st1 with voiceModeActive := false }
  | PbEv.voiceOn => { st with voiceModeActive := true }
  | PbEv.recStop => { st with isRecording := false }

/-- Run a list of playback lifecycle events. -/
def pbRun (st : PbSt) : List PbEv → PbSt
  | [] => st
  | e :: es => pbRun (pbStep st e) es

/-- A state with the premium provider reported available (after a probe
answered available = true). -/
def readySt : St :=
  { initSt with elevenLabsAvailable := true }

/-- A barge-in situation: voice mode on, premium reply audio playing, the
microphone idle. -/
def bargeSt : St :=
  { initSt with
    elevenLabsAvailable := true
    voiceModeActive := true
    autoSpeak := true
    isSpeaking := true
    currentAudio := some { playing := true } }

/-- First enablement of voice mode with the probe answering available and
the greeting synthesized by the premium engine. -/
def c1En1 : St :=
  (stepEvent initSt (Ev.voiceClick (some true) (TtsResult.body true (some "mp3")))).1

/-- The following click disables voice mode again (probe and greeting
arguments unused on the disabling branch). -/
def c1Dis : St :=
  (stepEvent c1En1 (Ev.voiceClick none TtsResult.netError)).1

/-- Second enablement in the same session, with the probe now answering
not available. -/
def c1En2 : St :=
  (stepEvent c1Dis (Ev.voiceClick (some false) TtsResult.netError)).1

/-- Enable voice mode (premium greeting plays), then a speak call whose
premium request fails with status 500: the session marks the provider
unavailable. -/
def c3TraceMarked : List Ev :=
  [Ev.voiceClick (some true) (TtsResult.body true (some "mp3")),
   Ev.speak (some 1) (TtsResult.httpError 500)]

/-- Continue the same session: disable voice mode, re-enable it with the
probe answering available (greeting returns no audio, so it falls back),
then one more speak call with a successful premium response. -/
def c3TraceFull : List Ev :=
  c3TraceMarked ++
    [Ev.voiceClick none TtsResult.netError,
     Ev.voiceClick (some true) (TtsResult.body true none),
     Ev.speak (some 2) (TtsResult.body true (some "mp3"))]

/-- Enable voice mode (the premium greeting audio starts playing), then the
user clicks the read-aloud button of message 5 while that audio is still
playing: speakText runs. -/
def c4Trace : List Ev :=
  [Ev.voiceClick (some true) (TtsResult.body true (some "mp3")),
   Ev.speakBtn 5]

/-- The state after the read-aloud click of c4Trace. -/
def c4FinalSt : St :=
  (runEvents initSt c4Trace).1

/-- A dispatch in flight: the send button is disabled and dimmed, the input
field disabled, and the user has typed a second message. -/
def inflightSt : UiState :=
  { inputValue := "hello"
    sendBtnDisabled := true
    userInputDisabled := true
    sendBtnDimmed := true
    debugMode := false
    messages := [Msg.user "first"]
    sessionId := none }

/-- A raw clip capture that has been running and accumulated three chunks,
with the 30 second timeout armed and the user still speaking. -/
def hdRunningSt : HdSt :=
  { useHDMode := true
    recState := RecorderState.recording
    isRecording := true
    audioChunks := [1, 2, 3]
    timerArmed := some 30000
    transcribeRequests := []
    errors := []
    dispatched := [] }

/-- A playback lifecycle state in which element 0 has been cancelled
(paused by stopSpeakingElevenLabs) and element 1 is the current playing
element, with voice mode on and the microphone armed. -/
def pbCancelledSt : PbSt :=
  { audios := [AudioPhase.paused, AudioPhase.playing]
    currentAudio := some 1
    voiceModeActive := true
    isRecording := true
    rearms := [] }

/-- Event sequence after the cancellation of element 0: the capture ends,
and late finish events arrive for the stale element 0 and then for the
live element 1. -/
def pbLateEvents : List PbEv :=
  [PbEv.recStop, PbEv.finish 0, PbEv.finish 1]

theorem stopSpeakingElevenLabs_flag (st : St) :
    (stopSpeakingElevenLabs st).elevenLabsAvailable = st.elevenLabsAvailable := by
  unfold stopSpeakingElevenLabs stopSpeaking
  cases hca : st.currentAudio <;> simp [hca]

theorem stopSpeakingElevenLabs_currentAudio (st : St) :
    (stopSpeakingElevenLabs st).currentAudio = none := by
  unfold stopSpeakingElevenLabs stopSpeaking
  cases hca : st.currentAudio <;> simp [hca]

theorem stopSpeakingElevenLabs_isRecording (st : St) :
    (stopSpeakingElevenLabs st).isRecording = st.isRecording := by
  unfold stopSpeakingElevenLabs stopSpeaking
  cases hca : st.currentAudio <;> simp [hca]

theorem premiumActive_eq_false (st : St) (h : st.currentAudio = none) :
    premiumActive st = false := by
  simp [premiumActive, h]

theorem applyMicOp_flag (st : St) (op : MicOp) :
    (applyMicOp st op).elevenLabsAvailable = st.elevenLabsAvailable := by
  cases op <;> simp [applyMicOp, stopSpeakingElevenLabs_flag]

theorem startListening_flag (st : St) :
    (startListening st).elevenLabsAvailable = st.elevenLabsAvailable := by
  unfold startListening startListeningOps
  rw [List.foldl_cons, List.foldl_cons, List.foldl_cons, List.foldl_nil,
    applyMicOp_flag, applyMicOp_flag, applyMicOp_flag]

theorem speakWithElevenLabs_flag_mono (st : St) (m : Option Nat) (res : TtsResult)
    (h : (speakWithElevenLabs st m res).1.elevenLabsAvailable = true) :
    st.elevenLabsAvailable = true := by
  by_cases hf : st.elevenLabsAvailable
  · exact hf
  · exfalso
    simp only [Bool.not_eq_true] at hf
    simp [speakWithElevenLabs, hf, speakText] at h

theorem speakWithElevenLabs_flag_false (st : St) (m : Option Nat) (res : TtsResult)
    (h : st.elevenLabsAvailable = false) :
    (speakWithElevenLabs st m res).1.elevenLabsAvailable = false ∧
    (speakWithElevenLabs st m res).2 =
      { premiumRequested := false, engine := Engine.browser } := by
  simp [speakWithElevenLabs, h, speakText]

theorem onstop_requests (st : HdSt) (o : TranscribeOutcome) :
    (onstopHandler st o).transcribeRequests = st.transcribeRequests ++ [st.audioChunks] := by
  cases o with
  | response success text err =>
      by_cases hb : (success && jsTruthy text) = true <;> simp [onstopHandler, hb]
  | netError => rfl

/-- Claim C2 (counterexample): the claim says every premium response with a
5xx status marks the provider unavailable; on status 503 the code leaves
elevenLabsAvailable true (chat.js line 397 tests only 401 and 500). -/
theorem c2_counterexample :
    readySt.elevenLabsAvailable = true ∧
    (speakWithElevenLabs readySt none (TtsResult.httpError 503)).2.premiumRequested = true ∧
    (speakWithElevenLabs readySt none (TtsResult.httpError 503)).1.elevenLabsAvailable = true := by
  decide

/-- Claim C2 (amended): for every premium synthesis HTTP response with a
non-ok status, the utterance falls back to the local engine, and the
provider is marked unavailable for the session exactly when the status
code is 401 or 500 (other statuses, including other 5xx codes, leave the
availability flag unchanged). -/
theorem c2_mark_unavailable_401_500 : ∀ (st : St) (m : Option Nat) (status : Nat),
    st.elevenLabsAvailable = true →
    (speakWithElevenLabs st m (TtsResult.httpError status)).2.engine = Engine.browser ∧
    (speakWithElevenLabs st m (TtsResult.httpError status)).1.elevenLabsAvailable
      = !(status == 401 || status == 500) := by
  intro st m status h
  by_cases hs : (status == 401 || status == 500) = true <;>
    simp [speakWithElevenLabs, h, hs, speakText]

theorem c2_mark_unavailable_401_500_witness :
    readySt.elevenLabsAvailable = true ∧
    ((speakWithElevenLabs readySt none (TtsResult.httpError 500)).2.engine = Engine.browser ∧
     (speakWithElevenLabs readySt none (TtsResult.httpError 500)).1.elevenLabsAvailable
       = !((500 : Nat) == 401 || (500 : Nat) == 500)) :=
  ⟨rfl, c2_mark_unavailable_401_500 readySt none 500 rfl⟩

/-- Claim C4 (code evaluated at the failing input): after voice mode is
enabled and the premium greeting audio is playing, a click on the
read-aloud button of message 5 runs speakText, which cancels only the
speech synthesis queue; the premium Audio element keeps playing, so two
playbacks are active at once, violating the single playback invariant the
source comment (Cancel any ongoing speech, chat.js line 236) intends. -/
theorem c4_two_playbacks :
    premiumActive c4FinalSt = true ∧ c4FinalSt.synthActive = true ∧
    activePlaybacks c4FinalSt = 2 := by
  decide

/-- Claim C5 (counterexample): with a dispatch in flight (send button
disabled) and the text hello typed, sendMessage returns through the bare
early return of chat.js line 532: the outcome is ignored, which carries no
state change, no queued request and no message - there is no already
sending signal to the user, the second request is dropped silently. -/
theorem c5_counterexample :
    inflightSt.sendBtnDisabled = true ∧
    sendMessageEntry inflightSt = SendPhase1.ignored :=
  ⟨rfl, by simp [sendMessageEntry, inflightSt]⟩

/-- Claim C5 (amended): issuing a second send while a dispatch is in
flight is rejected immediately: it is not queued, the in-flight request
and all other state are untouched, and no user-facing message is produced
- the rejection is silent, the disabled and dimmed send control being the
only indication that sending is in progress. -/
theorem c5_silent_rejection : ∀ st : UiState, st.sendBtnDisabled = true →
    sendMessageEntry st = SendPhase1.ignored := by
  intro st h
  simp [sendMessageEntry, h]

theorem c5_silent_rejection_witness :
    sendMessageEntry inflightSt = SendPhase1.ignored :=
  c5_silent_rejection inflightSt rfl

/-- Claim C8 (amended): startListening in HD mode arms a 30000 millisecond
timeout, and when the timeout fires while the recorder is still recording
and the strategy is still RawClip (useHDMode has not been toggled off
mid-recording), the capture is force-stopped and the partial clip recorded
so far is submitted to the transcription service, whatever the
transcription outcome is. -/
theorem c8_timeout_forces_stop :
    (∀ s0 : HdSt, (startCaptureHD s0).timerArmed = some 30000) ∧
    ∀ (st : HdSt) (o : TranscribeOutcome),
      st.useHDMode = true → st.recState = RecorderState.recording →
      (timeoutFire st).recState = RecorderState.inactive ∧
      (timeoutFire st).isRecording = false ∧
      (onstopHandler (timeoutFire st) o).transcribeRequests
        = st.transcribeRequests ++ [st.audioChunks] := by
  constructor
  · intro s0; rfl
  · intro st o h1 h2
    have ht : timeoutFire st =
        { st with recState := RecorderState.inactive, isRecording := false } := by
      simp [timeoutFire, stopListening, h1, h2]
    rw [ht]
    exact ⟨rfl, rfl, onstop_requests _ o⟩

theorem c8_witness :
    hdRunningSt.useHDMode = true ∧ hdRunningSt.recState = RecorderState.recording ∧
    ((timeoutFire hdRunningSt).recState = RecorderState.inactive ∧
     (timeoutFire hdRunningSt).isRecording = false ∧
     (onstopHandler (timeoutFire hdRunningSt)
        (TranscribeOutcome.response true (some "partial text") none)).transcribeRequests
       = hdRunningSt.transcribeRequests ++ [hdRunningSt.audioChunks]) :=
  ⟨rfl, rfl, c8_timeout_forces_stop.2 hdRunningSt
    (TranscribeOutcome.response true (some "partial text") none) rfl rfl⟩

/-- Claim C8 (counterexample): the claim promises the force-stop for every
raw-clip capture, but the HD toggle has no guard against clicks during a
recording.  Starting from a running raw-clip capture, one click on the HD
toggle switches useHDMode off; when the 30 second timeout then fires with
the recorder still recording, stopListening takes its recognition branch
(chat.js lines 222 to 224), so the recorder keeps recording past 30
seconds and nothing is ever submitted for transcription. -/
theorem c8_toggle_defeats_timeout :
    hdRunningSt.recState = RecorderState.recording ∧
    (hdToggleClick hdRunningSt).useHDMode = false ∧
    (hdToggleClick hdRunningSt).recState = RecorderState.recording ∧
    (timeoutFire (hdToggleClick hdRunningSt)).recState = RecorderState.recording ∧
    (timeoutFire (hdToggleClick hdRunningSt)).isRecording = true ∧
    (timeoutFire (hdToggleClick hdRunningSt)).transcribeRequests = [] := by
  decide

/-- Claim C9: whenever the transcription attempt fails (response without
success, missing or empty text, or a network error), the onstop handler
reports exactly one error message and hands nothing to dispatch: the
dispatched list is unchanged. -/
theorem c9_failure_no_dispatch : ∀ (st : HdSt) (o : TranscribeOutcome),
    transcribeSucceeded o = false →
    (onstopHandler st o).dispatched = st.dispatched ∧
    (onstopHandler st o).errors.length = st.errors.length + 1 := by
  intro st o h
  cases o with
  | response success text err =>
      have hb : (success && jsTruthy text) = false := by
        simpa [transcribeSucceeded] using h
      simp [onstopHandler, hb]
  | netError => simp [onstopHandler]

theorem c9_witness :
    transcribeSucceeded (TranscribeOutcome.response true none none) = false ∧
    ((onstopHandler hdRunningSt (TranscribeOutcome.response true none none)).dispatched
       = hdRunningSt.dispatched ∧
     (onstopHandler hdRunningSt (TranscribeOutcome.response true none none)).errors.length
       = hdRunningSt.errors.length + 1) :=
  ⟨rfl, c9_failure_no_dispatch hdRunningSt (TranscribeOutcome.response true none none) rfl⟩

/-- Claim C10: every terminal outcome of a dispatch - non-ok response, ok
response (with or without a reply or detail), or network error -
re-enables the send button and the input field and restores the button
opacity before resolveDispatch returns, so the single-flight gate is
always released. -/
theorem c10_controls_reenabled : ∀ (st : UiState) (o : ChatOutcome),
    (resolveDispatch st o).sendBtnDisabled = false ∧
    (resolveDispatch st o).userInputDisabled = false ∧
    (resolveDispatch st o).sendBtnDimmed = false := by
  intro st o
  cases o with
  | httpFail body => simp [resolveDispatch, addErrorMessage, enableSendControls]
  | okJson response sid detail =>
      by_cases h1 : jsTruthy response = true
      · cases sid <;> simp [resolveDispatch, h1, addBotMessage, enableSendControls]
      · by_cases h2 : jsTruthy detail = true <;>
          simp [resolveDispatch, h1, h2, addErrorMessage, enableSendControls]
  | netError => simp [resolveDispatch, addErrorMessage, enableSendControls]

/-- Claim C6: during a barge-in (startListening called while the
microphone is idle), in every observed state of the call in which the new
capture is active, both playbacks have already been cancelled: the
cancellation operations precede the capture acquisition, so there is no
instant with both an active playback and the new capture. -/
theorem c6_cancel_before_capture : ∀ st : St, st.isRecording = false →
    ∀ s ∈ micStates st, s.isRecording = true →
      premiumActive s = false ∧ s.synthActive = false ∧ s.currentAudio = none := by
  intro st h s hs hrec
  have hlist : micStates st =
      [st,
       applyMicOp st MicOp.cancelPremiumPlayback,
       applyMicOp (applyMicOp st MicOp.cancelPremiumPlayback) MicOp.cancelLocalSynth,
       applyMicOp (applyMicOp (applyMicOp st MicOp.cancelPremiumPlayback)
         MicOp.cancelLocalSynth) MicOp.acquireCapture] := rfl
  rw [hlist] at hs
  simp only [List.mem_cons, List.not_mem_nil, or_false] at hs
  rcases hs with rfl | rfl | rfl | rfl
  · rw [h] at hrec; exact absurd hrec (by simp)
  · exact absurd hrec (by simp [applyMicOp, stopSpeakingElevenLabs_isRecording, h])
  · exact absurd hrec (by simp [applyMicOp, stopSpeakingElevenLabs_isRecording, h])
  · refine ⟨?_, ?_, ?_⟩
    · apply premiumActive_eq_false
      simp [applyMicOp, stopSpeakingElevenLabs_currentAudio]
    · simp [applyMicOp]
    · simp [applyMicOp, stopSpeakingElevenLabs_currentAudio]

theorem c6_witness :
    bargeSt.isRecording = false ∧
    startListening bargeSt ∈ micStates bargeSt ∧
    (startListening bargeSt).isRecording = true ∧
    (premiumActive (startListening bargeSt) = false ∧
     (startListening bargeSt).synthActive = false ∧
     (startListening bargeSt).currentAudio = none) :=
  ⟨rfl, by decide, by decide,
    c6_cancel_before_capture bargeSt rfl (startListening bargeSt) (by decide) (by decide)⟩

/-- Claim C1 (counterexample): elevenLabsAvailable starts false, not true;
enabling voice mode with the probe reporting available flips it from false
to true within the same session; and a second enablement consults the
probe again (the flag follows the later probe answer), so the status query
is not performed only once at the first enablement. -/
theorem c1_counterexample :
    initSt.elevenLabsAvailable = false ∧
    c1En1.elevenLabsAvailable = true ∧
    c1En2.elevenLabsAvailable = false := by
  decide

/-- Claim C1 (amended): the premium availability flag starts false; on
each click that enables hands-free mode the status query runs and the flag
is set from its answer (false when the query fails); a premium call
failing with status 401 or 500 clears it.  Apart from an enabling click
whose probe reports available, no event ever makes the flag true: outside
enablements the flag only moves from true to false, but each enablement
within the session may restore it. -/
theorem c1_flag_characterization :
    initSt.elevenLabsAvailable = false ∧
    ∀ (st : St) (e : Ev), (stepEvent st e).1.elevenLabsAvailable = true →
      st.elevenLabsAvailable = true ∨
      ∃ g, e = Ev.voiceClick (some true) g ∧ st.voiceModeActive = false := by
  refine ⟨rfl, ?_⟩
  intro st e h
  cases e with
  | voiceClick probe greet =>
      by_cases hv : st.voiceModeActive = true
      · left
        simpa [stepEvent, hv, stopSpeakingElevenLabs_flag] using h
      · simp only [Bool.not_eq_true] at hv
        cases probe with
        | none =>
            exfalso
            simp [stepEvent, hv, speakWithElevenLabs, speakText] at h
        | some b =>
            cases b with
            | false =>
                exfalso
                simp [stepEvent, hv, speakWithElevenLabs, speakText] at h
            | true => exact Or.inr ⟨greet, rfl, hv⟩
  | speak msgId res =>
      left
      apply speakWithElevenLabs_flag_mono st msgId res
      simpa [stepEvent] using h
  | speakBtn msgId =>
      left
      by_cases hc : (st.isSpeaking && st.currentSpeakingMsgId == some msgId) = true <;>
        simpa [stepEvent, hc, stopSpeaking, speakText] using h
  | audioEnded =>
      left
      cases hca : st.currentAudio with
      | none => simpa [stepEvent, hca] using h
      | some a =>
          cases a with
          | mk p =>
              cases p with
              | false => simpa [stepEvent, hca] using h
              | true =>
                  by_cases hv : (st.voiceModeActive && !st.isRecording) = true <;>
                    simpa [stepEvent, hca, hv, startListening_flag] using h

theorem c1_flag_characterization_witness :
    (stepEvent readySt (Ev.speak none TtsResult.netError)).1.elevenLabsAvailable = true ∧
    (readySt.elevenLabsAvailable = true ∨
     ∃ g, Ev.speak none TtsResult.netError = Ev.voiceClick (some true) g ∧
       readySt.voiceModeActive = false) :=
  ⟨by decide,
   c1_flag_characterization.2 readySt (Ev.speak none TtsResult.netError) (by decide)⟩

theorem stepEvent_nonclick (st : St) (e : Ev)
    (h : st.elevenLabsAvailable = false)
    (hne : ∀ p g, e ≠ Ev.voiceClick p g) :
    (stepEvent st e).1.elevenLabsAvailable = false ∧
    ∀ o ∈ (stepEvent st e).2.toList,
      o.premiumRequested = false ∧ o.engine = Engine.browser := by
  cases e with
  | voiceClick p g => exact absurd rfl (hne p g)
  | speak m res =>
      have hsw := speakWithElevenLabs_flag_false st m res h
      constructor
      · simpa [stepEvent] using hsw.1
      · intro o ho
        simp only [stepEvent, Option.toList_some, List.mem_singleton] at ho
        rw [ho, hsw.2]
        exact ⟨rfl, rfl⟩
  | speakBtn m =>
      by_cases hc : (st.isSpeaking && st.currentSpeakingMsgId == some m) = true
      · constructor
        · simpa [stepEvent, hc, stopSpeaking] using h
        · intro o ho
          simp [stepEvent, hc] at ho
      · constructor
        · simpa [stepEvent, hc, speakText] using h
        · intro o ho
          simp only [stepEvent, hc, Bool.false_eq_true, if_false,
            Option.toList_some, List.mem_singleton] at ho
          rw [ho]
          exact ⟨rfl, rfl⟩
  | audioEnded =>
      constructor
      · cases hca : st.currentAudio with
        | none => simpa [stepEvent, hca] using h
        | some a =>
            cases a with
            | mk p =>
                cases p with
                | false => simpa [stepEvent, hca] using h
                | true =>
                    by_cases hv : (st.voiceModeActive && !st.isRecording) = true <;>
                      simpa [stepEvent, hca, hv, startListening_flag] using h
      · intro o ho
        cases hca : st.currentAudio with
        | none => simp [stepEvent, hca] at ho
        | some a =>
            cases a with
            | mk p =>
                cases p with
                | false => simp [stepEvent, hca] at ho
                | true =>
                    by_cases hv : (st.voiceModeActive && !st.isRecording) = true <;>
                      simp [stepEvent, hca, hv] at ho

/-- Claim C3 (counterexample): the claim says that once the provider is
marked unavailable, every later speak call in the session skips the
premium path.  In the trace below a speak call failing with status 500
marks the provider unavailable, but after voice mode is toggled off and on
again within the same session - the probe answering available - the next
speak call issues a premium request again. -/
theorem c3_counterexample :
    (runEvents initSt c3TraceMarked).1.elevenLabsAvailable = false ∧
    (runEvents initSt c3TraceFull).2.getLast? =
      some { premiumRequested := true, engine := Engine.premium } := by
  decide

/-- Claim C3 (amended): once the provider is marked unavailable, every
subsequent speak call up to the next enablement of voice mode renders via
the local fallback engine and issues no premium request, however many
times speak is called; only a later enabling click (whose probe may answer
available) can restore the premium path. -/
theorem c3_fallback_until_reenable : ∀ (evs : List Ev) (st : St),
    st.elevenLabsAvailable = false →
    (∀ e ∈ evs, ∀ p g, e ≠ Ev.voiceClick p g) →
    (runEvents st evs).1.elevenLabsAvailable = false ∧
    ∀ o ∈ (runEvents st evs).2,
      o.premiumRequested = false ∧ o.engine = Engine.browser := by
  intro evs
  induction evs with
  | nil =>
      intro st h _
      refine ⟨h, ?_⟩
      intro o ho
      simp [runEvents] at ho
  | cons e es ih =>
      intro st h hne
      have hs := stepEvent_nonclick st e h (hne e (List.mem_cons_self e es))
      have hrest := ih (stepEvent st e).1 hs.1
        (fun x hx => hne x (List.mem_cons_of_mem e hx))
      constructor
      · exact hrest.1
      · intro o ho
        have ho2 : o ∈ (stepEvent st e).2.toList ∨
            o ∈ (runEvents (stepEvent st e).1 es).2 := by
          simpa [runEvents, List.mem_append] using ho
        rcases ho2 with hm | hm
        · exact hs.2 o hm
        · exact hrest.2 o hm

theorem c3_fallback_until_reenable_witness :
    (runEvents initSt [Ev.speak (some 3) TtsResult.netError,
        Ev.speak (some 4) (TtsResult.body true (some "mp3"))]).1.elevenLabsAvailable = false ∧
    ∀ o ∈ (runEvents initSt [Ev.speak (some 3) TtsResult.netError,
        Ev.speak (some 4) (TtsResult.body true (some "mp3"))]).2,
      o.premiumRequested = false ∧ o.engine = Engine.browser :=
  c3_fallback_until_reenable
    [Ev.speak (some 3) TtsResult.netError,
     Ev.speak (some 4) (TtsResult.body true (some "mp3"))] initSt rfl
    (by
      intro e he p g
      simp only [List.mem_cons, List.mem_singleton, List.not_mem_nil, or_false] at he
      rcases he with rfl | rfl <;> · intro hcontr; exact Ev.noConfusion hcontr)


theorem lt_length_of_getElem_eq_some {α : Type} {l : List α} {i : Nat} {a : α}
    (h : l[i]? = some a) : i < l.length := by
  obtain ⟨hlt, -⟩ := List.getElem?_eq_some_iff.mp h
  exact hlt

theorem cancelCurrent_preserves_paused (st : PbSt) (i : Nat)
    (hp : st.audios[i]? = some AudioPhase.paused) :
    (cancelCurrent st).audios[i]? = some AudioPhase.paused ∧
    (cancelCurrent st).rearms = st.rearms := by
  unfold cancelCurrent
  cases hca : st.currentAudio with
  | none => exact ⟨hp, rfl⟩
  | some k =>
      refine ⟨?_, rfl⟩
      show (st.audios.set k AudioPhase.paused)[i]? = some AudioPhase.paused
      by_cases hk : k = i
      · subst hk
        exact List.getElem?_set_self (lt_length_of_getElem_eq_some hp)
      · rw [List.getElem?_set_ne hk]
        exact hp

theorem pbStep_preserves_paused (st : PbSt) (e : PbEv) (i : Nat)
    (hp : st.audios[i]? = some AudioPhase.paused) :
    (pbStep st e).audios[i]? = some AudioPhase.paused ∧
    ((pbStep st e).rearms = st.rearms ∨
     ∃ j, (pbStep st e).rearms = st.rearms ++ [j] ∧ j ≠ i) := by
  cases e with
  | finish j =>
      cases hj : st.audios[j]? with
      | none =>
          have hred : pbStep st (PbEv.finish j) = st := by
            simp only [pbStep, hj]
          rw [hred]
          exact ⟨hp, Or.inl rfl⟩
      | some ph =>
          cases ph with
          | paused =>
              have hred : pbStep st (PbEv.finish j) = st := by
                simp only [pbStep, hj]
              rw [hred]
              exact ⟨hp, Or.inl rfl⟩
          | ended =>
              have hred : pbStep st (PbEv.finish j) = st := by
                simp only [pbStep, hj]
              rw [hred]
              exact ⟨hp, Or.inl rfl⟩
          | playing =>
              have hji : j ≠ i := by
                intro hcontr
                rw [hcontr, hp] at hj
                cases hj
              have hp1 : (st.audios.set j AudioPhase.ended)[i]?
                  = some AudioPhase.paused := by
                rw [List.getElem?_set_ne hji]
                exact hp
              by_cases hv : (st.voiceModeActive && !st.isRecording) = true
              · have hred : pbStep st (PbEv.finish j) =
                    (let st2 := cancelCurrent
                      { st with audios := st.audios.set j AudioPhase.ended }
                     { st2 with isRecording := true, rearms := st2.rearms ++ [j] }) := by
                  simp only [pbStep, hj, hv, if_true]
                rw [hred]
                have hc := cancelCurrent_preserves_paused
                  { st with audios := st.audios.set j AudioPhase.ended } i hp1
                refine ⟨hc.1, Or.inr ⟨j, ?_, hji⟩⟩
                show (cancelCurrent
                    { st with audios := st.audios.set j AudioPhase.ended }).rearms ++ [j]
                  = st.rearms ++ [j]
                rw [hc.2]
              · have hv2 : (st.voiceModeActive && !st.isRecording) = false := by
                  simpa using hv
                have hred : pbStep st (PbEv.finish j) =
                    { st with audios := st.audios.set j AudioPhase.ended } := by
                  simp only [pbStep, hj, hv2, Bool.false_eq_true, if_false]
                rw [hred]
                exact ⟨hp1, Or.inl rfl⟩
  | stopPlayback =>
      have hc := cancelCurrent_preserves_paused st i hp
      exact ⟨hc.1, Or.inl hc.2⟩
  | newPlayback =>
      have hc := cancelCurrent_preserves_paused st i hp
      constructor
      · show ((cancelCurrent st).audios ++ [AudioPhase.playing])[i]?
            = some AudioPhase.paused
        rw [List.getElem?_append_left (lt_length_of_getElem_eq_some hc.1)]
        exact hc.1
      · exact Or.inl hc.2
  | voiceOff =>
      have hc := cancelCurrent_preserves_paused st i hp
      exact ⟨hc.1, Or.inl hc.2⟩
  | voiceOn => exact ⟨hp, Or.inl rfl⟩
  | recStop => exact ⟨hp, Or.inl rfl⟩

/-- Claim C7: once a premium playback element has been cancelled (paused
by stopSpeakingElevenLabs), it stays paused forever - the platform never
fires the ended event of a paused element - so no late terminal event of
the superseded handle ever runs the auto-listen re-arm of the onended
handler: the cancelled element never appears in the re-arm log, whatever
events follow in the session. -/
theorem c7_cancelled_handle_never_rearms : ∀ (evs : List PbEv) (st : PbSt) (i : Nat),
    st.audios[i]? = some AudioPhase.paused → i ∉ st.rearms →
    (pbRun st evs).audios[i]? = some AudioPhase.paused ∧
    i ∉ (pbRun st evs).rearms := by
  intro evs
  induction evs with
  | nil => intro st i hp hn; exact ⟨hp, hn⟩
  | cons e es ih =>
      intro st i hp hn
      have hs := pbStep_preserves_paused st e i hp
      have hn1 : i ∉ (pbStep st e).rearms := by
        rcases hs.2 with heq | ⟨j, heq, hji⟩
        · rw [heq]; exact hn
        · rw [heq]
          intro hmem
          rcases List.mem_append.mp hmem with hm | hm
          · exact hn hm
          · exact hji (List.mem_singleton.mp hm).symm
      exact ih (pbStep st e) i hs.1 hn1

theorem c7_witness :
    (pbCancelledSt.audios[0]? = some AudioPhase.paused ∧
     (0 : Nat) ∉ pbCancelledSt.rearms) ∧
    ((pbRun pbCancelledSt pbLateEvents).audios[0]? = some AudioPhase.paused ∧
     (0 : Nat) ∉ (pbRun pbCancelledSt pbLateEvents).rearms) :=
  ⟨⟨rfl, by decide⟩,
   c7_cancelled_handle_never_rearms pbLateEvents pbCancelledSt 0 rfl (by decide)⟩
